/-
Verification of the job lifecycle / log cache / output binding core of
`src/biokbase/narrative/jobs/job.py` (the `Job` class).

The embedding is shallow: each method of the Python `Job` class becomes a
Lean function over explicit arguments standing for the object state
(`self._job_logs`, `self.inputs`, ...) and for the response of the remote
job-service client (`self._njs`).  Remote calls that can raise are modelled
with `Except`; a raised Python exception is an `Except.error` value.
-/
import Mathlib

namespace Narrative

/-- A JSON-like value, the shape of remote payload fields, job inputs and
resolved output parameters. -/
inductive Value where
  | null : Value
  | str : String → Value
  | num : Int → Value
  | arr : List Value → Value
  | obj : List (String × Value) → Value

/-- Lookup in an association list standing for a Python dict
(`d.get(k, None)` style lookups are `(alookup d k).getD .null`). -/
def alookup (l : List (String × Value)) (k : String) : Option Value :=
  match l with
  | [] => none
  | (k2, v) :: rest => if k2 = k then some v else alookup rest k

/-- `d[k] = v` on a Python dict: replace the binding if the key is present,
append it otherwise (insertion order preserved). -/
def aset (l : List (String × Value)) (k : String) (v : Value) : List (String × Value) :=
  match l with
  | [] => [(k, v)]
  | (k2, v2) :: rest => if k2 = k then (k2, v) :: rest else (k2, v2) :: aset rest k v

/-- The payload returned by the remote `check_job` call: a dict carrying at
least a `job_state` string and, possibly, a `result` value (`result := none`
models the absence of the `'result'` key). -/
structure JobStatePayload where
  job_state : String
  result : Option Value := none

/-- The stored job-info record handed to `Job.from_state` (the first element
of `njs.get_job_params`): key `'params'` (the launch parameters) and the
optional key `'service_ver'` (`job_info.get('service_ver', None)`). -/
structure JobInfo where
  params : List (String × Value)
  service_ver : Option String := none

/-- The `Job` object: identity and immutable launch metadata
(`job_id`, `app_id`, `app_version`, `tag`, `cell_id`, `inputs`). -/
structure Job where
  job_id : String
  app_id : String
  app_version : Option String := none
  tag : String := "release"
  cell_id : Option String := none
  inputs : List (String × Value) := []

/-- One of the remote-service methods the `Job` class can invoke on its
client handle.  Used as the entries of a call trace. -/
inductive RemoteCall where
  | check_job : String → RemoteCall
  | get_job_params : String → RemoteCall
  | get_logs : String → Nat → RemoteCall
  | cancel : String → RemoteCall

/-- `Job.from_state(job_id, job_info, app_id, tag, cell_id)`: builds a `Job`
from a stored record.  The second component is the trace of remote-service
method invocations performed while constructing it; the source bodies of
`from_state` and `__init__` contain none (the constructor only acquires the
client handle via `clients.get('job_service')`, which is not an invocation of
`check_job` / `get_job_params` / `get_logs` / `cancel`), so the trace is
empty. -/
def Job.from_state (job_id : String) (job_info : JobInfo) (app_id : String)
    (tag : String) (cell_id : Option String) : Job × List RemoteCall :=
  ({ job_id := job_id,
     app_id := app_id,
     app_version := job_info.service_ver,
     tag := tag,
     cell_id := cell_id,
     inputs := job_info.params }, [])

/-- `Job.status(self)`: returns `self._njs.check_job(self.job_id)['job_state']`.
The argument is the outcome of the remote `check_job` call; an exception from
the remote call propagates, and on success the raw `job_state` string is
returned unchanged — no mapping or validation is applied to it. -/
def Job.status {E : Type} (resp : Except E JobStatePayload) : Except E String :=
  match resp with
  | .error e => .error e
  | .ok payload => .ok payload.job_state

/-- Python `str.lower()` (ASCII case folding, per character). -/
def lowerStr (s : String) : String :=
  String.mk (s.data.map Char.toLower)

/-- `Job.is_finished(self)` as a function of the remote-reported status
string: `status.lower() in ['completed', 'error', 'suspend']`. -/
def Job.is_finished (job_state : String) : Bool :=
  (["completed", "error", "suspend"] : List String).contains (lowerStr job_state)

/-- The value a call to `Job.log` evaluates to: the early branch returns a
bare list (`return list()`), the main branch returns the tuple
`(num_available_lines, slice)`. -/
inductive LogReturn where
  | bare : List String → LogReturn
  | pair : Nat → List String → LogReturn
deriving DecidableEq

/-- Observable outcome of one `Job.log` call: the log buffer
(`self._job_logs`) after the call, the returned value (or propagated
exception), and the `skip_lines` offset that was passed to the remote
`get_job_logs` call. -/
structure LogCall (E : Type) where
  buffer : List String
  ret : Except E LogReturn
  skip : Nat

/-- `Job._update_log(self)` on a successful remote response: with
`log_update['lines'] = newLines`, the buffer is reassigned to
`self._job_logs + newLines` when `newLines` is truthy (non-empty), left
alone otherwise. -/
def Job.update_log (buffer newLines : List String) : List String :=
  if newLines.isEmpty then buffer else buffer ++ newLines

/-- `Job.log(self, first_line, num_lines)`.  `remote` is the remote
`get_job_logs` client: given the `skip_lines` offset it either raises or
returns the `lines` field of the response.  The method first runs
`_update_log` (passing `len(self._job_logs)` as `skip_lines`; an exception
propagates and leaves the buffer untouched), then clamps a negative
`first_line` to 0, defaults an unspecified `num_lines` to
`num_available_lines - first_line`, and returns `list()` when
`first_line >= num_available_lines or num_lines <= 0`, and the tuple
`(num_available_lines, self._job_logs[first_line:first_line+num_lines])`
otherwise. -/
def Job.log {E : Type} (remote : Nat → Except E (List String))
    (buffer : List String) (first_line : Int) (num_lines : Option Int) :
    LogCall E :=
  match remote buffer.length with
  | .error e => ⟨buffer, .error e, buffer.length⟩
  | .ok newLines =>
    let buf := Job.update_log buffer newLines
    let n : Int := buf.length
    let fl : Int := if first_line < 0 then 0 else first_line
    let nl : Int := match num_lines with
      | none => n - fl
      | some k => k
    ⟨buf,
     if n ≤ fl ∨ nl ≤ 0 then .ok (.bare [])
     else .ok (.pair buf.length ((buf.drop fl.toNat).take nl.toNat)),
     buffer.length⟩

/-- Split a list of characters at the dots, for dot-separated output paths. -/
def splitDotAux (cs : List Char) (cur : List Char) : List (List Char) :=
  match cs with
  | [] => [cur.reverse]
  | c :: rest =>
    if c = '.' then cur.reverse :: splitDotAux rest []
    else splitDotAux rest (c :: cur)

/-- The segments of a dot-separated path string. -/
def pathSegs (p : String) : List String :=
  (splitDotAux p.data []).map String.mk

/-- Parse a non-empty all-digit segment as a sequence index. -/
def digitsToNat (cs : List Char) : Option Nat :=
  match cs with
  | [] => none
  | _ =>
    if cs.all Char.isDigit then
      some (cs.foldl (fun acc c => acc * 10 + (c.toNat - 48)) 0)
    else none

/-- Walk one path, segment by segment, through nested mappings/sequences;
any missing segment yields the null marker. -/
def walkPath (v : Value) (segs : List String) : Value :=
  match segs with
  | [] => v
  | s :: rest =>
    match v with
    | .obj fields =>
      match alookup fields s with
      | some v2 => walkPath v2 rest
      | none => .null
    | .arr items =>
      match digitsToNat s.data with
      | some i =>
        match items.get? i with
        | some v2 => walkPath v2 rest
        | none => .null
      | none => .null
    | _ => .null

/-- Modelled from the spec: `get_sub_path` lives in
`biokbase.narrative.common.generic_service_calls`, which is not part of the
available sources — per §4.3 it is "a structured path-walk into
`terminal_result` (dot/ index-separated path against nested
mappings/sequences), returning a null/absent marker if any path segment is
missing partway, rather than raising". -/
def get_sub_path (v : Value) (path : String) : Value :=
  walkPath v (pathSegs path)

/-- One entry of the app spec's `kb_service_output_mapping` list: a target
property plus whichever of the four mutually exclusive strategy keys are
present in the dict. -/
structure OutParam where
  target_property : String
  narrative_system_variable : Option String := none
  constant_value : Option Value := none
  input_parameter : Option String := none
  service_method_output_path : Option String := none

/-- One iteration of the `output_viewer` binding loop: dispatch on the
strategy keys in the source's `if`/`elif` order (`narrative_system_variable`,
`constant_value`, `input_parameter`, `service_method_output_path`), assigning
`widget_params[p_id]`; a dict with none of the four keys assigns nothing.
`sysvar` stands for `app_util.system_variable`, modelled from the spec as
"an externally supplied environment/context lookup" (its source is not in
the available files); `inputs` is `self.inputs` and `result` is
`state['result']`. -/
def applyOutParam (sysvar : String → Value) (inputs : List (String × Value))
    (result : Value) (acc : List (String × Value)) (p : OutParam) :
    List (String × Value) :=
  match p.narrative_system_variable with
  | some name => aset acc p.target_property (sysvar name)
  | none =>
    match p.constant_value with
    | some v => aset acc p.target_property v
    | none =>
      match p.input_parameter with
      | some key => aset acc p.target_property ((alookup inputs key).getD .null)
      | none =>
        match p.service_method_output_path with
        | some path => aset acc p.target_property (get_sub_path result path)
        | none => acc

/-- The ASCII single-quote character used by the incomplete-job message. -/
def squote : String := String.singleton (Char.ofNat 39)

/-- The string built by `"Job is incomplete! It has status '{}'".format(job_state)`. -/
def incompleteMsg (job_state : String) : String :=
  "Job is incomplete! It has status " ++ squote ++ job_state ++ squote

/-- The value `Job.output_viewer` evaluates to: either the rendered output
widget (widget name, tag, and the flat `widget_params` mapping handed to
`WidgetManager().show_output_widget`) or the incomplete-job message
string. -/
inductive OVResult where
  | widget : String → String → List (String × Value) → OVResult
  | incomplete : String → OVResult

/-- `Job.output_viewer(self)`.  `state` is the remote status payload from
`self.state()`; `mapping` is `app_spec['behavior'].get('kb_service_output_mapping', [])`;
`outputWidget` is `app_spec.get('widgets', {}).get('output', ...)` before the
default is applied; `inputs` is `self.inputs` and `tag` is `self.tag`.  When
`state['job_state'] == 'completed' and 'result' in state`, the binding loop
builds `widget_params` and the output widget is shown; otherwise the
formatted incomplete-job string is returned. -/
def Job.output_viewer (sysvar : String → Value) (state : JobStatePayload)
    (mapping : List OutParam) (outputWidget : Option String)
    (inputs : List (String × Value)) (tag : String) : OVResult :=
  match state.result with
  | some res =>
    if state.job_state = "completed" then
      .widget (outputWidget.getD "kbaseDefaultNarrativeOutput") tag
        (mapping.foldl (applyOutParam sysvar inputs res) [])
    else
      .incomplete (incompleteMsg state.job_state)
  | none => .incomplete (incompleteMsg state.job_state)

/-- Shared helper: a successful `_update_log` always extends the buffer by the
returned lines (the truthiness test only skips a no-op append of `[]`). -/
theorem update_log_eq_append (buffer newLines : List String) :
    Job.update_log buffer newLines = buffer ++ newLines := by
  cases newLines <;> simp [Job.update_log]

/-- Shared helper: when the remote `get_job_logs` call raises, `Job.log`
propagates the exception and leaves the buffer at its pre-call value. -/
theorem log_buffer_err {E : Type} (remote : Nat → Except E (List String))
    (buffer : List String) (first_line : Int) (num_lines : Option Int) (e : E)
    (h : remote buffer.length = .error e) :
    Job.log remote buffer first_line num_lines = ⟨buffer, .error e, buffer.length⟩ := by
  unfold Job.log
  rw [h]

/-- Shared helper: when the remote `get_job_logs` call succeeds with
`newLines`, the post-call buffer is exactly the old buffer with `newLines`
appended. -/
theorem log_buffer_ok {E : Type} (remote : Nat → Except E (List String))
    (buffer : List String) (first_line : Int) (num_lines : Option Int)
    (newLines : List String) (h : remote buffer.length = .ok newLines) :
    (Job.log remote buffer first_line num_lines).buffer = buffer ++ newLines := by
  unfold Job.log
  rw [h]
  exact update_log_eq_append buffer newLines

/-- Shared helper: every `Job.log` call passes the pre-call buffer length as
the `skip_lines` offset of the remote `get_job_logs` request. -/
theorem log_skip_eq {E : Type} (remote : Nat → Except E (List String))
    (buffer : List String) (first_line : Int) (num_lines : Option Int) :
    (Job.log remote buffer first_line num_lines).skip = buffer.length := by
  unfold Job.log
  cases h : remote buffer.length with
  | error e => rfl
  | ok newLines => rfl

/-- C1 counterexample: the claim says `is_finished()` is true for the
lifecycle state `cancelled`, but the source tests membership in
`["completed", "error", "suspend"]`, so the reported status `"cancelled"`
yields `False`. -/
theorem is_finished_cancelled_not_finished :
    Job.is_finished "cancelled" = false := by decide

/-- C1 (amended): for every remote-reported status string among the five
lifecycle states (compared case-insensitively), `is_finished()` returns true
iff the state is `completed` or `error`; it returns false for `queued`,
`running` and `cancelled` (the source recognizes the extra string `suspend`
in place of `cancelled`). -/
theorem is_finished_iff_completed_or_error (s : String)
    (h : lowerStr s ∈ ["queued", "running", "completed", "error", "cancelled"]) :
    Job.is_finished s = true ↔ lowerStr s ∈ ["completed", "error"] := by
  simp only [List.mem_cons, List.not_mem_nil, or_false] at h
  unfold Job.is_finished
  rcases h with h | h | h | h | h <;> rw [h] <;> decide

/-- C1 witness: the amended theorem applied to the concrete reported status
`"Error"` (case-insensitive: it lowercases to the lifecycle state `error`),
for which `is_finished()` returns true. -/
theorem is_finished_iff_witness :
    lowerStr "Error" ∈ ["queued", "running", "completed", "error", "cancelled"] ∧
      Job.is_finished "Error" = true :=
  ⟨by decide, (is_finished_iff_completed_or_error "Error" (by decide)).mpr (by decide)⟩

/-- C2 counterexample: for the raw status string `"bogus-state"`, which is
not one of the five enumerated lifecycle states, `Job.status` returns the
string itself (`Except.ok`), not an `UnknownStateError`: the source merely
returns `check_job(job_id)["job_state"]`, and no `UnknownStateError` exists
anywhere in the available sources. -/
theorem status_unknown_state_passthrough :
    Job.status (E := Unit) (.ok ⟨"bogus-state", none⟩) = .ok "bogus-state" := rfl

/-- C2 (amended): for every raw status payload the remote service returns
successfully, the status operation passes the raw `job_state` string through
unchanged — unrecognized strings are neither rejected nor defaulted. -/
theorem status_returns_raw_job_state (E : Type) (payload : JobStatePayload) :
    Job.status (E := E) (.ok payload) = .ok payload.job_state := rfl

/-- C3: every `log()` call passes the current buffer length as the remote
skip offset; on a successful refresh the new buffer is exactly the old
buffer with the returned lines appended, so the buffer is append-only (the
old buffer stays a prefix, the length never decreases), and when the remote
service honors the skip offset (returns exactly the lines beyond the offset
of a full log that extends the buffer) the buffer ends up equal to that full
log — no gaps, no duplicates. -/
theorem log_buffer_append_only {E : Type} (remote : Nat → Except E (List String))
    (buffer : List String) (first_line : Int) (num_lines : Option Int) :
    (Job.log remote buffer first_line num_lines).skip = buffer.length
    ∧ buffer <+: (Job.log remote buffer first_line num_lines).buffer
    ∧ buffer.length ≤ (Job.log remote buffer first_line num_lines).buffer.length
    ∧ (∀ newLines, remote buffer.length = .ok newLines →
        (Job.log remote buffer first_line num_lines).buffer = buffer ++ newLines)
    ∧ (∀ full : List String, buffer <+: full →
        remote buffer.length = .ok (full.drop buffer.length) →
        (Job.log remote buffer first_line num_lines).buffer = full) := by
  have hpre : buffer <+: (Job.log remote buffer first_line num_lines).buffer := by
    cases h : remote buffer.length with
    | error e => rw [log_buffer_err remote buffer first_line num_lines e h]
    | ok newLines =>
      rw [log_buffer_ok remote buffer first_line num_lines newLines h]
      exact ⟨newLines, rfl⟩
  refine ⟨log_skip_eq remote buffer first_line num_lines, hpre, hpre.length_le, ?_, ?_⟩
  · exact fun newLines h => log_buffer_ok remote buffer first_line num_lines newLines h
  · intro full hfull hok
    obtain ⟨t, ht⟩ := hfull
    rw [log_buffer_ok remote buffer first_line num_lines (full.drop buffer.length) hok,
        ← ht, List.drop_left]

/-- C3 witness: a buffer `["a"]` against a remote log `["a", "b", "c"]`
whose service honors the skip offset; after one `log()` call the buffer is
the full log. -/
theorem log_buffer_append_only_witness :
    (Job.log (E := Unit) (fun k => .ok (["a", "b", "c"].drop k)) ["a"] 0 none).buffer =
      ["a", "b", "c"] :=
  (log_buffer_append_only (fun k => .ok (["a", "b", "c"].drop k)) ["a"] 0 none).2.2.2.2
    ["a", "b", "c"] ⟨["b", "c"], rfl⟩ rfl

/-- C5 (code bug): with a post-refresh buffer of length 3, `log(5, 10)`
returns the bare empty list (`return list()` in the source), not the pair
`(3, [])` that the claim and the spec state. -/
theorem log_out_of_range_returns_bare_list :
    (Job.log (E := Unit) (fun _ => .ok []) ["a", "b", "c"] 5 (some 10)).ret =
        .ok (.bare [])
    ∧ (Job.log (E := Unit) (fun _ => .ok []) ["a", "b", "c"] 5 (some 10)).ret ≠
        .ok (.pair 3 []) :=
  ⟨rfl, fun hc => LogReturn.noConfusion (Except.ok.inj hc)⟩

/-- C6: for an in-range call (after the refresh appends the remote lines,
the clamped `first_line` is below the buffer length and the resolved
`num_lines` — defaulting to length minus `first_line` when unspecified — is
positive), `log()` returns the pair of the total buffer length and the slice
`buffer[first_line : first_line + num_lines]`. -/
theorem log_in_range_slice {E : Type} (remote : Nat → Except E (List String))
    (buffer : List String) (first_line : Int) (num_lines : Option Int)
    (newLines : List String) (h : remote buffer.length = .ok newLines)
    (fl nl : Int)
    (hfl : fl = if first_line < 0 then 0 else first_line)
    (hnl : nl = match num_lines with
      | none => ((buffer ++ newLines).length : Int) - fl
      | some k => k)
    (hin : fl < ((buffer ++ newLines).length : Int)) (hpos : 0 < nl) :
    (Job.log remote buffer first_line num_lines).ret =
      .ok (.pair (buffer ++ newLines).length
        (((buffer ++ newLines).drop fl.toNat).take nl.toNat)) := by
  subst hfl
  subst hnl
  unfold Job.log
  rw [h]
  simp only [update_log_eq_append]
  rw [if_neg]
  push_neg
  exact ⟨hin, hpos⟩

/-- C6 witness: with a post-refresh buffer `["a", "b", "c"]`, `log(1, 1)`
returns `(3, ["b"])`. -/
theorem log_in_range_slice_witness :
    (Job.log (E := Unit) (fun _ => .ok ["a", "b", "c"]) [] 1 (some 1)).ret =
      .ok (.pair 3 ["b"]) :=
  log_in_range_slice (fun _ => .ok ["a", "b", "c"]) [] 1 (some 1) ["a", "b", "c"] rfl
    1 1 (by decide) rfl (by decide) (by decide)

/-- C8: if the remote `get_job_logs` call raises during the refresh,
`log()` propagates the error to its caller and the log buffer is left
unchanged at its pre-call value — no partial append, no truncation. -/
theorem log_error_leaves_buffer_unchanged {E : Type}
    (remote : Nat → Except E (List String)) (buffer : List String)
    (first_line : Int) (num_lines : Option Int) (e : E)
    (h : remote buffer.length = .error e) :
    Job.log remote buffer first_line num_lines = ⟨buffer, .error e, buffer.length⟩ :=
  log_buffer_err remote buffer first_line num_lines e h

/-- C8 witness: a remote call failing with `"boom"` on a buffer `["x"]`:
the error propagates and the buffer stays `["x"]`. -/
theorem log_error_leaves_buffer_unchanged_witness :
    Job.log (E := String) (fun _ => .error "boom") ["x"] 0 none =
      ⟨["x"], .error "boom", 1⟩ :=
  log_error_leaves_buffer_unchanged (fun _ => .error "boom") ["x"] 0 none "boom" rfl

/-- C7: for every status payload whose state is not `completed`, the
rendered-output operation returns the descriptive incomplete-job string
naming the current status — it never raises for this case. -/
theorem output_viewer_incomplete_message (sysvar : String → Value)
    (state : JobStatePayload) (mapping : List OutParam) (ow : Option String)
    (inputs : List (String × Value)) (tag : String)
    (h : state.job_state ≠ "completed") :
    Job.output_viewer sysvar state mapping ow inputs tag =
      .incomplete ("Job is incomplete! It has status " ++ squote ++ state.job_state ++ squote) := by
  obtain ⟨js, res⟩ := state
  cases res with
  | none => rfl
  | some r =>
    simp only [Job.output_viewer]
    rw [if_neg h]
    rfl

/-- C7 witness: a queued job: `output_viewer` returns the incomplete-job
message naming the status `queued`. -/
theorem output_viewer_incomplete_message_witness :
    Job.output_viewer (fun _ => .null) ⟨"queued", none⟩ [] none [] "release" =
      .incomplete ("Job is incomplete! It has status " ++ squote ++ "queued" ++ squote) :=
  output_viewer_incomplete_message _ _ _ _ _ _ (by decide)

/-- C10: when the remote payload reports `job_state` equal to `completed`
but carries no `result` key, `output_viewer` performs no binding resolution
and does not raise: it returns the same descriptive incomplete-job message,
here reporting the status as `completed`. -/
theorem output_viewer_completed_without_result (sysvar : String → Value)
    (state : JobStatePayload) (mapping : List OutParam) (ow : Option String)
    (inputs : List (String × Value)) (tag : String)
    (h1 : state.job_state = "completed") (h2 : state.result = none) :
    Job.output_viewer sysvar state mapping ow inputs tag =
      .incomplete ("Job is incomplete! It has status " ++ squote ++ "completed" ++ squote) := by
  obtain ⟨js, res⟩ := state
  cases h2
  cases h1
  rfl

/-- C10 witness: the payload with state `completed` and no result: the
incomplete-job message reports the status `completed`. -/
theorem output_viewer_completed_without_result_witness :
    Job.output_viewer (fun _ => .null) ⟨"completed", none⟩ [] none [] "release" =
      .incomplete ("Job is incomplete! It has status " ++ squote ++ "completed" ++ squote) :=
  output_viewer_completed_without_result _ _ _ _ _ _ rfl rfl

/-- C4: each binding resolves by its single strategy — a system variable via
the injected lookup, a constant verbatim, an input parameter via
`inputs.get(key)` with a null marker when absent (never an error), an output
path via the path-walk into the terminal result — and the spec's worked
example (system vars `{workspace: ws1}`, empty job inputs, terminal result
`{result: [{id: G1}]}`) yields the flat mapping
`{ws: ws1, k: 42, p: null, r: G1}`. -/
theorem output_viewer_binding_resolution :
    (∀ (sysvar : String → Value) (inputs : List (String × Value)) (res : Value)
        (acc : List (String × Value)) (t name : String),
      applyOutParam sysvar inputs res acc
          { target_property := t, narrative_system_variable := some name } =
        aset acc t (sysvar name))
    ∧ (∀ (sysvar : String → Value) (inputs : List (String × Value)) (res : Value)
        (acc : List (String × Value)) (t : String) (v : Value),
      applyOutParam sysvar inputs res acc
          { target_property := t, constant_value := some v } =
        aset acc t v)
    ∧ (∀ (sysvar : String → Value) (inputs : List (String × Value)) (res : Value)
        (acc : List (String × Value)) (t key : String),
      applyOutParam sysvar inputs res acc
          { target_property := t, input_parameter := some key } =
        aset acc t ((alookup inputs key).getD .null))
    ∧ (∀ (sysvar : String → Value) (inputs : List (String × Value)) (res : Value)
        (acc : List (String × Value)) (t path : String),
      applyOutParam sysvar inputs res acc
          { target_property := t, service_method_output_path := some path } =
        aset acc t (get_sub_path res path))
    ∧ Job.output_viewer
        (fun n => if n = "workspace" then .str "ws1" else .null)
        ⟨"completed", some (.obj [("result", .arr [.obj [("id", .str "G1")]])])⟩
        [ { target_property := "ws", narrative_system_variable := some "workspace" },
          { target_property := "k", constant_value := some (.num 42) },
          { target_property := "p", input_parameter := some "missing" },
          { target_property := "r", service_method_output_path := some "result.0.id" } ]
        none [] "release"
      = .widget "kbaseDefaultNarrativeOutput" "release"
          [("ws", .str "ws1"), ("k", .num 42), ("p", .null), ("r", .str "G1")] :=
  ⟨fun _ _ _ _ _ _ => rfl, fun _ _ _ _ _ _ => rfl, fun _ _ _ _ _ _ => rfl,
   fun _ _ _ _ _ _ => rfl, rfl⟩

/-- C9: reconstructing a `Job` via `from_state` performs no remote-service
method invocation (the call trace is empty), and the resulting record takes
`inputs` from the stored `params`, `app_version` from the stored
`service_ver`, and `job_id`, `app_id`, `tag`, `cell_id` from the
arguments. -/
theorem from_state_no_remote_calls (job_id : String) (job_info : JobInfo)
    (app_id tag : String) (cell_id : Option String) :
    (Job.from_state job_id job_info app_id tag cell_id).2 = []
    ∧ (Job.from_state job_id job_info app_id tag cell_id).1 =
        { job_id := job_id, app_id := app_id, app_version := job_info.service_ver,
          tag := tag, cell_id := cell_id, inputs := job_info.params } :=
  ⟨rfl, rfl⟩

end Narrative
